import Mathlib

/-!
Verification of the RealEstate analysis pipeline
(`src/analysis/normalizer.py`, `src/analysis/relisting_detector.py`,
`src/analysis/microzone_calculator.py`, `src/analysis/opportunity_scorer.py`).

Python floats are modelled as exact rationals (ℚ); the claims under scrutiny
are algebraic identities, comparisons and branch selections, which the float
code computes exactly on the inputs considered.  Python `dict.get` on
possibly-missing keys is modelled with `Option` fields, and Python truthiness
of a retrieved value (`if d.get(k):`) is modelled explicitly: a string is
truthy iff present and nonempty, a number iff present and nonzero.
-/

namespace RealEstate

/-- Python `needle in hay` substring containment, on character lists. -/
def containsSub (hay needle : List Char) : Bool :=
  hay.tails.any (fun t => needle.isPrefixOf t)

/-- Python `str.lower()`, on character lists.  `Char.toLower` lowercases
ASCII letters, which covers every cue word and branch the claims exercise. -/
def toLowerL (cs : List Char) : List Char := cs.map Char.toLower

/-- Python `str.strip()` (default: strip whitespace at both ends). -/
def stripL (cs : List Char) : List Char :=
  ((cs.dropWhile Char.isWhitespace).reverse.dropWhile Char.isWhitespace).reverse

/-- Python `str.split()` (no argument): split on whitespace runs, dropping
empty pieces. -/
def wordsL (cs : List Char) : List (List Char) :=
  (List.splitOnP Char.isWhitespace cs).filter (fun w => w ≠ [])

/-- Python truthiness of an optional string (`if d.get(k):`). -/
def truthyS : Option String → Bool
  | some s => s ≠ ""
  | none => false

/-- Python truthiness of an optional number (`if d.get(k):`). -/
def truthyQ : Option ℚ → Bool
  | some q => q ≠ 0
  | none => false

/-! ## normalizer.py -/

/-- `config/settings.py`: `DOLAR_MEP = 1150.0`. -/
def DOLAR_MEP : ℚ := 1150

/-- `normalizer.normalize_price_to_usd(price, currency, dolar_mep=None)`:
USD passes through, ARS divides by the rate when positive (else 0),
any other currency passes through. -/
def normalize_price_to_usd (price : ℚ) (currency : String)
    (dolar_mep : Option ℚ) : ℚ :=
  let rate := dolar_mep.getD DOLAR_MEP
  if currency = "USD" then price
  else if currency = "ARS" then
    (if rate > 0 then price / rate else 0)
  else price

/-- Digit run to a natural number (`int(match.group(1))`). -/
def digitsToNat (ds : List Char) : Nat :=
  ds.foldl (fun n c => 10 * n + (c.toNat - 48)) 0

/-- The room words of the regex `(\d+)\s*(?:amb|ambiente|dormitorio|habitacion)`.
`amb` is listed before `ambiente`, as in the source alternation. -/
def ROOM_WORDS : List String := ["amb", "ambiente", "dormitorio", "habitacion"]

/-- `re.search(r'(\d+)\s*(?:amb|ambiente|dormitorio|habitacion)', text)`:
scan left to right for the earliest position where a maximal digit run,
followed by optional whitespace, is followed by a room word; return the run's
value.  (The alternatives begin with letters and `\s*` cannot consume a digit,
so the greedy engine never backtracks into the digit run.) -/
def findNumRoom : List Char → Option Nat
  | [] => none
  | c :: rest =>
    if c.isDigit then
      let digits := (c :: rest).takeWhile Char.isDigit
      let after := ((c :: rest).dropWhile Char.isDigit).dropWhile Char.isWhitespace
      if ROOM_WORDS.any (fun w => w.toList.isPrefixOf after) then
        some (digitsToNat digits)
      else findNumRoom rest
    else findNumRoom rest

/-- `normalizer.normalize_rooms`'s `text_to_num` dict, in insertion order
(Python dicts iterate in insertion order). Note the trailing space of "un ". -/
def text_to_num : List (String × Nat) :=
  [("un ", 1), ("uno", 1), ("una", 1), ("dos", 2), ("tres", 3),
   ("cuatro", 4), ("cinco", 5), ("seis", 6), ("siete", 7)]

/-- `text.lower().strip()`, the preprocessed text `normalize_rooms` scans. -/
def normTxt (text : String) : List Char := stripL (toLowerL text.toList)

/-- `normalizer.normalize_rooms(text)`: empty → 0; lowercase and strip; a
`'mono' in text` hit → 1; else the numeral regex; else the first matching
spelled-out numeral; else 0. -/
def normalize_rooms (text : String) : Nat :=
  if text = "" then 0
  else if containsSub (normTxt text) "mono".toList then 1
  else
    match findNumRoom (normTxt text) with
    | some n => n
    | none =>
      match text_to_num.find? (fun kv => containsSub (normTxt text) kv.1.toList) with
      | some kv => kv.2
      | none => 0

/-! ## The listing record

One record type covers the fields the analysis modules read with
`dict.get`.  Every field is optional: `none` models a missing key. -/

structure Listing where
  id : Option String := none
  source : Option String := none
  url : Option String := none
  direccion_normalizada : Option String := none
  lat : Option ℚ := none
  lng : Option ℚ := none
  m2_total : Option ℚ := none
  ambientes : Option ℚ := none
  piso : Option ℚ := none
  barrio : Option String := none
  descripcion : Option String := none
  titulo : Option String := none
  precio_usd_mep : Option ℚ := none
  precio_m2 : Option ℚ := none
  zscore : Option ℚ := none
  status : Option String := none
  price_delta_pct : Option ℚ := none
deriving DecidableEq

/-! ## relisting_detector.py -/

/-- `relisting_detector.simple_text_similarity`: Jaccard similarity of the
lowercased word sets of the two texts; 0 when either text is empty or has no
words. -/
def simple_text_similarity (text1 text2 : String) : ℚ :=
  if text1 = "" ∨ text2 = "" then 0
  else
    let words1 := (wordsL (toLowerL text1.toList)).dedup
    let words2 := (wordsL (toLowerL text2.toList)).dedup
    if words1 = [] ∨ words2 = [] then 0
    else
      let intersection := words1.filter (fun w => w ∈ words2)
      let union := (words1 ++ words2).dedup
      if union = [] then 0
      else (intersection.length : ℚ) / (union.length : ℚ)

/-- The two skip conditions at the top of the `is_relisting` loop: same `id`
(Python `==` on possibly-missing values: `None == None` is `True`), or same
`source` and same `url`. -/
def skipPair (n o : Listing) : Bool :=
  n.id = o.id ∨ (n.source = o.source ∧ n.url = o.url)

/-- The confidence score of `is_relisting` for one candidate pair.

`d` abstracts `haversine_distance` (a transcendental function of the four
coordinates; no claim under scrutiny depends on its value).  Each of the four
evidence groups adds its weight to `max_score` unconditionally — the source
increments `max_score` before testing field presence — so `max_score` is
always `40 + 25 + 20 + 15 = 100`. -/
def confidence (d : ℚ → ℚ → ℚ → ℚ → ℚ) (geo_threshold_meters : ℚ)
    (text_similarity_threshold : ℚ) (n o : Listing) : ℚ :=
  -- 1. normalized-address group (weight 40)
  let s1 : ℚ :=
    if truthyS n.direccion_normalizada ∧ truthyS o.direccion_normalizada then
      if n.direccion_normalizada = o.direccion_normalizada then 40
      else if simple_text_similarity (n.direccion_normalizada.getD "")
          (o.direccion_normalizada.getD "") > 8/10 then 30
      else 0
    else 0
  -- 2. geographic group (weight 25); `all([...])` is truthiness of each coordinate
  let s2 : ℚ :=
    if truthyQ n.lat ∧ truthyQ n.lng ∧ truthyQ o.lat ∧ truthyQ o.lng then
      let distance := d (n.lat.getD 0) (n.lng.getD 0) (o.lat.getD 0) (o.lng.getD 0)
      if distance < geo_threshold_meters then 25
      else if distance < geo_threshold_meters * 2 then 15
      else 0
    else 0
  -- 3. physical-features group (weight 20)
  let f1 : ℕ :=
    if truthyQ n.m2_total ∧ truthyQ o.m2_total ∧
        |n.m2_total.getD 0 - o.m2_total.getD 0| / o.m2_total.getD 0 < 5/100 then 1 else 0
  let f2 : ℕ :=
    if truthyQ n.ambientes ∧ truthyQ o.ambientes ∧ n.ambientes = o.ambientes then 1 else 0
  let f3 : ℕ :=
    if n.piso.isSome ∧ o.piso.isSome ∧ n.piso = o.piso then 1 else 0
  let f4 : ℕ :=
    if truthyS n.barrio ∧ truthyS o.barrio ∧
        toLowerL (n.barrio.getD "").toList = toLowerL (o.barrio.getD "").toList then 1 else 0
  let features_match := f1 + f2 + f3 + f4
  let s3 : ℚ := if features_match ≥ 3 then 20 else if features_match ≥ 2 then 10 else 0
  -- 4. description-similarity group (weight 15)
  let s4 : ℚ :=
    if truthyS n.descripcion ∧ truthyS o.descripcion then
      let desc_similarity := simple_text_similarity (n.descripcion.getD "")
        (o.descripcion.getD "")
      if desc_similarity > text_similarity_threshold then 15
      else if desc_similarity > 1/2 then 8
      else 0
    else 0
  let match_score := s1 + s2 + s3 + s4
  let max_score : ℚ := 40 + 25 + 20 + 15
  if max_score > 0 then match_score / max_score else 0

/-- The price-delta computation of the accepting branch of `is_relisting`:
`delta_pct` stays `None` unless both prices are truthy (present and nonzero)
and additionally `old_price > 0`. -/
def priceDelta (n o : Listing) : Option ℚ :=
  if truthyQ n.precio_usd_mep ∧ truthyQ o.precio_usd_mep then
    if o.precio_usd_mep.getD 0 > 0 then
      some ((n.precio_usd_mep.getD 0 - o.precio_usd_mep.getD 0) /
        o.precio_usd_mep.getD 0 * 100)
    else none
  else none

/-- `relisting_detector.is_relisting(new_property, historical_properties, 50, 0.7)`:
walk the historical pool in order, skip self-pairs, accept the first candidate
with confidence ≥ 0.6 and return it with the price delta. -/
def is_relisting (d : ℚ → ℚ → ℚ → ℚ → ℚ) (geo_threshold_meters : ℚ)
    (text_similarity_threshold : ℚ) (n : Listing) :
    List Listing → Bool × Option Listing × Option ℚ
  | [] => (false, none, none)
  | o :: rest =>
    if skipPair n o then is_relisting d geo_threshold_meters text_similarity_threshold n rest
    else if confidence d geo_threshold_meters text_similarity_threshold n o ≥ 6/10 then
      (true, some o, priceDelta n o)
    else is_relisting d geo_threshold_meters text_similarity_threshold n rest

/-- The relisting fields `detect_relistings` writes into each processed
listing (the other fields are copied unchanged). -/
structure RelistFields where
  status : String
  original_id : Option String
  original_price : Option ℚ
  price_delta_pct : Option ℚ
deriving DecidableEq

/-- The loop body of `detect_relistings` for one listing, with the source's
default thresholds (50 m, 0.7).  The `(true, none, _)` case cannot occur:
`is_relisting` always pairs `True` with the matched candidate. -/
def detect_one (d : ℚ → ℚ → ℚ → ℚ → ℚ) (historical : List Listing)
    (p : Listing) : RelistFields :=
  match is_relisting d 50 (7/10) p historical with
  | (true, some original, delta_pct) =>
    ⟨"relisted", original.id, original.precio_usd_mep, delta_pct⟩
  | (true, none, delta_pct) => ⟨"relisted", none, none, delta_pct⟩
  | (false, _, _) => ⟨"active", none, none, none⟩

/-- `relisting_detector.detect_relistings(properties, historical)`. -/
def detect_relistings (d : ℚ → ℚ → ℚ → ℚ → ℚ) (properties : List Listing)
    (historical : List Listing) : List RelistFields :=
  properties.map (detect_one d historical)

/-! ## microzone_calculator.py -/

/-- The statistics dict returned by `calculate_microzone_stats`.  The source
stores `std = sqrt(variance) if variance > 0 else 0.0`; the square root of a
rational is irrational in general, so the record keeps the exactly-computed
`variance` and the `std` entry is the derived real `MicrozoneStats.std`. -/
structure MicrozoneStats where
  mean : ℚ
  variance : ℚ
  median : ℚ
  min : ℚ
  max : ℚ
  count : ℕ
  mean_m2 : ℚ
deriving DecidableEq

/-- The all-zero statistics returned for an empty or priceless zone. -/
def zeroStats : MicrozoneStats := ⟨0, 0, 0, 0, 0, 0, 0⟩

/-- `std = math.sqrt(variance) if variance > 0 else 0.0`. -/
noncomputable def MicrozoneStats.std (s : MicrozoneStats) : ℝ :=
  if s.variance > 0 then Real.sqrt (s.variance : ℝ) else 0

/-- `[p[price_field] for p in properties if p.get(price_field, 0) > 0]`
with the default `price_field = 'precio_usd_mep'`. -/
def validPrices (properties : List Listing) : List ℚ :=
  (properties.filter (fun p => p.precio_usd_mep.getD 0 > 0)).map
    (fun p => p.precio_usd_mep.getD 0)

/-- `[p['precio_m2'] for p in properties if p.get('precio_m2', 0) > 0]`. -/
def validPricesM2 (properties : List Listing) : List ℚ :=
  (properties.filter (fun p => p.precio_m2.getD 0 > 0)).map
    (fun p => p.precio_m2.getD 0)

/-- `microzone_calculator.calculate_microzone_stats(properties)`:
arithmetic mean, population variance (divisor `n`), median by the even/odd
rule on the sorted valid prices, min, max, count, and mean price-per-area;
all zero when the zone is empty or has no valid price. -/
def calculate_microzone_stats (properties : List Listing) : MicrozoneStats :=
  if properties = [] then zeroStats
  else
    let prices := validPrices properties
    let prices_m2 := validPricesM2 properties
    if prices = [] then zeroStats
    else
      let n := prices.length
      let mean := prices.sum / (n : ℚ)
      let variance := (prices.map (fun p => (p - mean) ^ 2)).sum / (n : ℚ)
      let sorted_prices := List.insertionSort (fun a b => a ≤ b) prices
      let median :=
        if n % 2 = 0 then (sorted_prices.getD (n / 2 - 1) 0 + sorted_prices.getD (n / 2) 0) / 2
        else sorted_prices.getD (n / 2) 0
      let mean_m2 := if prices_m2 = [] then 0 else prices_m2.sum / (prices_m2.length : ℚ)
      ⟨mean, variance, median, prices.min?.getD 0, prices.max?.getD 0, n, mean_m2⟩

/-- `microzone_calculator.calculate_zscore(value, mean, std)`. -/
def calculate_zscore (value mean std : ℚ) : ℚ :=
  if std = 0 then 0 else (value - mean) / std

/-- The per-listing z-score assignment of `calculate_all_microzones`
(the block guarded by `precio_usd_mep > 0 and stats['std'] > 0`), returning
`(zscore, zscore_m2)`.  It is parametrized by the zone statistics
`mean`, `mean_m2` and `std` it reads from the stats dict; the pipeline feeds
`std = sqrt(variance)`, and the block is a rational function of that input. -/
def assign_zscore_fields (p : Listing) (mean mean_m2 std : ℚ) : ℚ × ℚ :=
  if p.precio_usd_mep.getD 0 > 0 ∧ std > 0 then
    (calculate_zscore (p.precio_usd_mep.getD 0) mean std,
     calculate_zscore (p.precio_m2.getD 0) mean_m2
       (if truthyQ p.m2_total then std / p.m2_total.getD 1 else 1))
  else (0, 0)

/-! ## opportunity_scorer.py and its config -/

/-- `config/settings.py`: `ZSCORE_THRESHOLD = -1.5`. -/
def ZSCORE_THRESHOLD : ℚ := -3/2

/-- `config/settings.py`: `OPPORTUNITY_SCORE_THRESHOLD = 30`. -/
def OPPORTUNITY_SCORE_THRESHOLD : ℚ := 30

/-- `config/keywords.py`: `URGENCY_KEYWORDS`. -/
def URGENCY_KEYWORDS : List String :=
  ["urgente", "urge", "urge vender", "sucesión", "sucesion", "retasado",
   "retasada", "rebajado", "rebajada", "oportunidad", "oportunidad única",
   "acepta permuta", "permuta", "escucha ofertas", "escucho ofertas",
   "a tratar", "negociable", "muy negociable", "liquido", "liquidación",
   "divorcio", "separación", "viaje", "viajo", "mudanza", "me mudo",
   "venta rápida", "venta rapida", "dueño directo", "dueño vende",
   "sin intermediarios", "bajo tasación", "bajo tasacion", "por debajo",
   "ganga", "regalar", "regalo"]

/-- `config/keywords.py`: `SECONDARY_KEYWORDS`. -/
def SECONDARY_KEYWORDS : List String :=
  ["excelente precio", "muy buen precio", "imperdible", "no te lo pierdas",
   "última oportunidad", "ultima oportunidad", "ocasión", "ocasion",
   "financiación", "financiacion", "cuotas"]

/-- `config/keywords.py`: `KEYWORD_WEIGHTS`, in insertion order. -/
def KEYWORD_WEIGHTS : List (String × ℚ) :=
  [("urgente", 5), ("sucesión", 5), ("sucesion", 5), ("retasado", 4),
   ("retasada", 4), ("acepta permuta", 4), ("divorcio", 4),
   ("liquidación", 4), ("bajo tasación", 4), ("bajo tasacion", 4),
   ("default", 2)]

/-- `opportunity_scorer.detect_keywords(text)`: the urgency keywords found in
the lowercased text, then the secondary ones.  The source returns
`list(set(found))`, whose order is unspecified in Python; we fix
first-occurrence order, which has the same elements (the two keyword lists
are duplicate-free and disjoint). -/
def detect_keywords (text : String) : List String :=
  let text_lower := toLowerL text.toList
  ((URGENCY_KEYWORDS.filter (fun k => containsSub text_lower k.toList)) ++
    (SECONDARY_KEYWORDS.filter (fun k => containsSub text_lower k.toList))).dedup

/-- `KEYWORD_WEIGHTS.get(keyword, KEYWORD_WEIGHTS.get('default', 5))`. -/
def keywordWeight (keyword : String) : ℚ :=
  ((KEYWORD_WEIGHTS.find? (fun kv => kv.1 = keyword)).map Prod.snd).getD
    (((KEYWORD_WEIGHTS.find? (fun kv => kv.1 = "default")).map Prod.snd).getD 5)

/-- `opportunity_scorer.calculate_keyword_score(keywords, max_score=15)`. -/
def calculate_keyword_score (keywords : List String) (max_score : ℚ := 15) : ℚ :=
  if keywords = [] then 0
  else min ((keywords.map keywordWeight).sum) max_score

/-- `opportunity_scorer.MARKET_PRICES_M2`, keyed by lowercased neighborhood. -/
def MARKET_PRICES_M2 : List (String × ℚ) :=
  [("palermo soho", 3200), ("palermo hollywood", 3100), ("palermo chico", 4000),
   ("palermo viejo", 3000), ("palermo nuevo", 2800), ("palermo botanico", 2900),
   ("palermo", 3100)]

/-- `MARKET_PRICES_M2.get(barrio, MARKET_PRICES_M2['palermo'])`; the
`'palermo'` entry is `3100`. -/
def marketPrice (barrio : List Char) : ℚ :=
  ((MARKET_PRICES_M2.find? (fun kv => kv.1.toList = barrio)).map Prod.snd).getD 3100

/-- The reason strings appended to `opportunity_reasons`, abstracted to their
constructors with the data interpolated into each f-string. -/
inductive Reason
  | price30 (precio_m2 precio_mercado : ℚ)
  | price20 (precio_m2 precio_mercado : ℚ)
  | price15 (precio_m2 precio_mercado : ℚ)
  | price10 (precio_m2 precio_mercado : ℚ)
  | priceLight
  | zscoreVeryLow (z : ℚ)
  | zscoreLow (z : ℚ)
  | keywordsFound (ks : List String)
  | onlineDays (days : ℤ)
  | relistingDrop (delta : ℚ)
deriving DecidableEq

/-- `opportunity_scorer.calculate_price_score(property_data)`: returns
`(score, descuento_pct, razon)`. -/
def calculate_price_score (p : Listing) : ℚ × ℚ × Option Reason :=
  let precio := p.precio_usd_mep.getD 0
  let m2 := p.m2_total.getD 0
  let barrio := toLowerL (p.barrio.getD "Palermo").toList
  if precio ≤ 0 ∨ m2 ≤ 0 then (0, 0, none)
  else
    let precio_m2 := precio / m2
    let precio_mercado := marketPrice barrio
    let descuento_pct := (precio_mercado - precio_m2) / precio_mercado * 100
    if descuento_pct ≥ 30 then (50, descuento_pct, some (.price30 precio_m2 precio_mercado))
    else if descuento_pct ≥ 20 then (40, descuento_pct, some (.price20 precio_m2 precio_mercado))
    else if descuento_pct ≥ 15 then (30, descuento_pct, some (.price15 precio_m2 precio_mercado))
    else if descuento_pct ≥ 10 then (20, descuento_pct, some (.price10 precio_m2 precio_mercado))
    else if descuento_pct ≥ 5 then (10, descuento_pct, some .priceLight)
    else (0, descuento_pct, none)

/-- The scoring fields `calculate_opportunity_score` writes into its result
(the other input fields are copied unchanged). -/
structure ScoreResult where
  opportunity_score : ℚ
  opportunity_reasons : List Reason
  market_discount_pct : ℚ
  days_online : ℤ
  is_opportunity : Bool
deriving DecidableEq

/-- `opportunity_scorer.calculate_opportunity_score(property_data)`.
`days_online` abstracts `calculate_days_online(first_seen)`, which reads the
wall clock (`datetime.now()`); the scoring logic is a pure function of its
value. -/
def calculate_opportunity_score (p : Listing) (days_online : ℤ) : ScoreResult :=
  let pr := calculate_price_score p
  let price_score := pr.1
  let descuento_pct := pr.2.1
  let price_reasons : List Reason := pr.2.2.toList
  let zscore := p.zscore.getD 0
  let zscore_score : ℚ :=
    if zscore < ZSCORE_THRESHOLD then 15
    else if zscore < -1 then 10
    else if zscore < -1/2 then 5
    else 0
  let zscore_reasons : List Reason :=
    if zscore < ZSCORE_THRESHOLD then [.zscoreVeryLow zscore]
    else if zscore < -1 then [.zscoreLow zscore]
    else []
  let keywords := detect_keywords ((p.descripcion.getD "") ++ " " ++ (p.titulo.getD ""))
  let keyword_score := calculate_keyword_score keywords
  let keyword_reasons : List Reason :=
    if keywords = [] then [] else [.keywordsFound (keywords.take 3)]
  let days_score : ℚ :=
    if days_online > 90 then 10
    else if days_online > 60 then 7
    else if days_online > 30 then 4
    else 0
  let days_reasons : List Reason :=
    if days_online > 90 then [.onlineDays days_online] else []
  let relist : ℚ × List Reason :=
    if p.status = some "relisted" then
      let delta_pct := p.price_delta_pct.getD 0
      if delta_pct ≠ 0 ∧ delta_pct < -10 then (10, [.relistingDrop delta_pct])
      else if delta_pct ≠ 0 ∧ delta_pct < -5 then (5, [])
      else (0, [])
    else (0, [])
  let score := price_score + zscore_score + keyword_score + days_score + relist.1
  let reasons := price_reasons ++ zscore_reasons ++ keyword_reasons ++
    days_reasons ++ relist.2
  let final_score := min score 100
  ⟨final_score, reasons, descuento_pct, days_online,
    decide (final_score ≥ OPPORTUNITY_SCORE_THRESHOLD)⟩

/-! ## Shared lemmas -/

/-- Every market reference price is positive (the table's values and the
`'palermo'` fallback are all positive constants), so the division by
`precio_mercado` in `calculate_price_score` never divides by zero. -/
lemma marketPrice_pos (barrio : List Char) : 0 < marketPrice barrio := by
  unfold marketPrice
  cases h : MARKET_PRICES_M2.find? (fun kv => kv.1.toList = barrio) with
  | none => simp [h]
  | some kv =>
    have hm : kv ∈ MARKET_PRICES_M2 := List.mem_of_find?_eq_some h
    have hall : ∀ x ∈ MARKET_PRICES_M2, (0 : ℚ) < x.2 := by
      intro x hx
      fin_cases hx <;> norm_num
    simpa [h] using hall kv hm

/-- Every keyword weight (and the default) lies in `[0, 5]`. -/
lemma keywordWeight_bounds (k : String) :
    0 ≤ keywordWeight k ∧ keywordWeight k ≤ 5 := by
  unfold keywordWeight
  cases h : KEYWORD_WEIGHTS.find? (fun kv => kv.1 = k) with
  | none => decide
  | some kv =>
    have hm : kv ∈ KEYWORD_WEIGHTS := List.mem_of_find?_eq_some h
    have hall : ∀ x ∈ KEYWORD_WEIGHTS, 0 ≤ x.2 ∧ x.2 ≤ 5 := by
      intro x hx
      fin_cases hx <;> norm_num
    simpa [h] using hall kv hm

/-- The keyword score is bounded by `[0, 15]`. -/
lemma calculate_keyword_score_bounds (ks : List String) :
    0 ≤ calculate_keyword_score ks ∧ calculate_keyword_score ks ≤ 15 := by
  unfold calculate_keyword_score
  split_ifs with h
  · norm_num
  · refine ⟨le_min ?_ (by norm_num), min_le_right _ _⟩
    apply List.sum_nonneg
    intro x hx
    obtain ⟨k, _, rfl⟩ := List.mem_map.mp hx
    exact (keywordWeight_bounds k).1

/-- The market-discount score is one of `0, 10, 20, 30, 40, 50`. -/
lemma calculate_price_score_fst_bounds (p : Listing) :
    0 ≤ (calculate_price_score p).1 ∧ (calculate_price_score p).1 ≤ 50 := by
  simp only [calculate_price_score]
  split_ifs <;> norm_num

/-! ## Claim theorems -/

/-- C4: `normalize_price_to_usd` returns the price unchanged for USD, divides
by a positive reference rate for ARS (and yields 0 for a non-positive rate),
never returns a negative value for a non-negative price, and satisfies the
two worked examples `normalize(1000, ARS, 1000) = 1` and
`normalize(100, USD, anything) = 100`. -/
theorem C4_normalize_price_currency_cases (price rate : ℚ) (r : Option ℚ)
    (currency : String) (hp : 0 ≤ price) :
    normalize_price_to_usd price "USD" r = price ∧
    (0 < rate → normalize_price_to_usd price "ARS" (some rate) = price / rate) ∧
    (rate ≤ 0 → normalize_price_to_usd price "ARS" (some rate) = 0) ∧
    0 ≤ normalize_price_to_usd price currency r ∧
    normalize_price_to_usd 1000 "ARS" (some 1000) = 1 ∧
    normalize_price_to_usd 100 "USD" r = 100 := by
  have hne : ("ARS" : String) ≠ "USD" := by decide
  refine ⟨?_, ?_, ?_, ?_, ?_, ?_⟩
  · simp [normalize_price_to_usd]
  · intro h
    simp [normalize_price_to_usd, hne, h]
  · intro h
    simp [normalize_price_to_usd, hne, not_lt.mpr h]
  · simp only [normalize_price_to_usd]
    split_ifs with h1 h2 h3
    · exact hp
    · exact div_nonneg hp (le_of_lt h3)
    · exact le_refl 0
    · exact hp
  · norm_num [normalize_price_to_usd, hne]
  · simp [normalize_price_to_usd]

/-- Witness for C4 at `price = 5`, `rate = 7`, `currency = "XYZ"`. -/
theorem C4_witness :
    normalize_price_to_usd 5 "USD" (some 7) = 5 ∧
    (0 < (7 : ℚ) → normalize_price_to_usd 5 "ARS" (some 7) = 5 / 7) ∧
    ((7 : ℚ) ≤ 0 → normalize_price_to_usd 5 "ARS" (some 7) = 0) ∧
    0 ≤ normalize_price_to_usd 5 "XYZ" (some 7) ∧
    normalize_price_to_usd 1000 "ARS" (some 1000) = 1 ∧
    normalize_price_to_usd 100 "USD" (some 7) = 100 :=
  C4_normalize_price_currency_cases 5 7 (some 7) "XYZ" (by norm_num)

/-- C10: for any currency other than exactly `"USD"` or `"ARS"`, the price
passes through unchanged — it is neither converted nor zeroed. -/
theorem C10_other_currency_passthrough (price : ℚ) (currency : String)
    (r : Option ℚ) (h1 : currency ≠ "USD") (h2 : currency ≠ "ARS") :
    normalize_price_to_usd price currency r = price := by
  simp [normalize_price_to_usd, h1, h2]

/-- Witness for C10 at the lowercase `"usd"` and at `"$"`. -/
theorem C10_witness :
    normalize_price_to_usd 1000 "usd" (some 1000) = 1000 ∧
    normalize_price_to_usd 7 "$" none = 7 :=
  ⟨C10_other_currency_passthrough 1000 "usd" (some 1000) (by decide) (by decide),
   C10_other_currency_passthrough 7 "$" none (by decide) (by decide)⟩

/-- C8 counterexample: on `"2 amb monoambiente"` the explicit numeral `2`
is adjacent to the room word `amb`, yet the function returns `1` — the
`'mono'` cue is tested first, so the explicit numeral does **not** take
priority as the claim states. -/
theorem C8_numeral_priority_cex :
    normalize_rooms "2 amb monoambiente" = 1 ∧ (1 : ℕ) ≠ 2 := by decide

/-- C8 amended: the `'mono…'` cue takes priority and maps to 1; otherwise an
explicit numeral adjacent to a room-indicating word wins; otherwise the fixed
vocabulary of spelled-out numerals applies in its order; any other text
yields 0; and the four worked examples hold. -/
theorem C8_mono_then_numeral_then_vocabulary :
    (∀ text : String, text ≠ "" →
      containsSub (normTxt text) "mono".toList = true →
      normalize_rooms text = 1) ∧
    (∀ (text : String) (k : ℕ), text ≠ "" →
      containsSub (normTxt text) "mono".toList = false →
      findNumRoom (normTxt text) = some k →
      normalize_rooms text = k) ∧
    (∀ (text : String) (kv : String × ℕ), text ≠ "" →
      containsSub (normTxt text) "mono".toList = false →
      findNumRoom (normTxt text) = none →
      text_to_num.find?
        (fun p => containsSub (normTxt text) p.1.toList) = some kv →
      normalize_rooms text = kv.2) ∧
    (∀ text : String, text ≠ "" →
      containsSub (normTxt text) "mono".toList = false →
      findNumRoom (normTxt text) = none →
      text_to_num.find?
        (fun p => containsSub (normTxt text) p.1.toList) = none →
      normalize_rooms text = 0) ∧
    normalize_rooms "Monoambiente" = 1 ∧
    normalize_rooms "3 ambientes" = 3 ∧
    normalize_rooms "dos dormitorios" = 2 ∧
    normalize_rooms "" = 0 := by
  refine ⟨?_, ?_, ?_, ?_, by decide, by decide, by decide, by decide⟩
  · intro text h1 h2
    unfold normalize_rooms
    rw [if_neg h1, if_pos h2]
  · intro text k h1 h2 h3
    unfold normalize_rooms
    rw [if_neg h1, if_neg (by simp only [h2]; decide), h3]
  · intro text kv h1 h2 h3 h4
    unfold normalize_rooms
    rw [if_neg h1, if_neg (by simp only [h2]; decide), h3, h4]
  · intro text h1 h2 h3 h4
    unfold normalize_rooms
    rw [if_neg h1, if_neg (by simp only [h2]; decide), h3, h4]

/-- Witness for C8's amended claim on four concrete inputs, one per branch. -/
theorem C8_witness :
    normalize_rooms "Monoambiente" = 1 ∧
    normalize_rooms "3 ambientes" = 3 ∧
    normalize_rooms "dos dormitorios" = ("dos", 2).2 ∧
    normalize_rooms "xyz" = 0 :=
  ⟨C8_mono_then_numeral_then_vocabulary.1 "Monoambiente" (by decide) (by decide),
   C8_mono_then_numeral_then_vocabulary.2.1 "3 ambientes" 3 (by decide) (by decide)
     (by decide),
   C8_mono_then_numeral_then_vocabulary.2.2.1 "dos dormitorios" ("dos", 2)
     (by decide) (by decide) (by decide) (by decide),
   C8_mono_then_numeral_then_vocabulary.2.2.2.1 "xyz" (by decide) (by decide)
     (by decide) (by decide)⟩

/-- C9: the guarded division sites — zero standard deviation yields z-score 0,
a missing or non-positive old price yields a null price delta, a non-positive
price or area yields the zero discount triple, and the market reference price
(the remaining divisor of `calculate_price_score`) is always positive. -/
theorem C9_division_guards :
    (∀ value mean : ℚ, calculate_zscore value mean 0 = 0) ∧
    (∀ n o : Listing, o.precio_usd_mep = none ∨ o.precio_usd_mep.getD 0 ≤ 0 →
      priceDelta n o = none) ∧
    (∀ p : Listing, p.precio_usd_mep.getD 0 ≤ 0 ∨ p.m2_total.getD 0 ≤ 0 →
      calculate_price_score p = (0, 0, none)) ∧
    (∀ barrio : List Char, 0 < marketPrice barrio) := by
  refine ⟨?_, ?_, ?_, marketPrice_pos⟩
  · intro value mean
    simp [calculate_zscore]
  · intro n o h
    unfold priceDelta
    rcases h with h | h
    · simp [truthyQ, h]
    · split_ifs with h1 h2
      · exact absurd h2 (not_lt.mpr h)
      · rfl
      · rfl

  · intro p h
    simp only [calculate_price_score]
    rw [if_pos h]

/-- Witness for C9 at concrete degenerate inputs. -/
theorem C9_witness :
    calculate_zscore 5 3 0 = 0 ∧
    priceDelta { precio_usd_mep := some 100 } { precio_usd_mep := some (-5) } = none ∧
    calculate_price_score { precio_usd_mep := some 100, m2_total := some 0 } =
      (0, 0, none) ∧
    0 < marketPrice "recoleta".toList :=
  ⟨(C9_division_guards.1 5 3),
   C9_division_guards.2.1 { precio_usd_mep := some 100 }
     { precio_usd_mep := some (-5) } (Or.inr (by norm_num)),
   C9_division_guards.2.2.1 { precio_usd_mep := some 100, m2_total := some 0 }
     (Or.inr (by norm_num)),
   C9_division_guards.2.2.2 "recoleta".toList⟩

/-- C3: under a positive zone standard deviation, a valid price and a nonzero
own area `a`, the per-area z-score is
`(precio_m2 − mean_m2) / (std / a)`; it is `(0, 0)` when the guard inputs are
degenerate; and two listings with the same price-per-area but different own
areas receive different per-area z-scores under the same zone statistics. -/
theorem C3_zscore_per_area (p : Listing) (mean mean_m2 std a : ℚ)
    (hstd : 0 < std) (hprice : 0 < p.precio_usd_mep.getD 0)
    (ha : p.m2_total = some a) (ha0 : a ≠ 0) :
    (assign_zscore_fields p mean mean_m2 std).2 =
      (p.precio_m2.getD 0 - mean_m2) / (std / a) ∧
    (∀ (q : Listing) (m mm s : ℚ), ¬(0 < q.precio_usd_mep.getD 0 ∧ 0 < s) →
      assign_zscore_fields q m mm s = (0, 0)) ∧
    (assign_zscore_fields
        { precio_usd_mep := some 500, precio_m2 := some 10, m2_total := some 50 }
        0 8 2).2 ≠
      (assign_zscore_fields
        { precio_usd_mep := some 1000, precio_m2 := some 10, m2_total := some 100 }
        0 8 2).2 := by
  refine ⟨?_, ?_, ?_⟩
  · unfold assign_zscore_fields
    rw [if_pos ⟨hprice, hstd⟩]
    simp only [ha, truthyQ, Option.getD_some]
    rw [if_pos (by simpa using ha0)]
    unfold calculate_zscore
    rw [if_neg (div_ne_zero hstd.ne' ha0)]
  · intro q m mm s h
    unfold assign_zscore_fields
    rw [if_neg h]
  · norm_num [assign_zscore_fields, calculate_zscore, truthyQ]

/-- Witness for C3 at a concrete listing with area 50 in a zone with
`mean_m2 = 8`, `std = 2`. -/
theorem C3_witness :
    (assign_zscore_fields
        { precio_usd_mep := some 500, precio_m2 := some 10, m2_total := some 50 }
        0 8 2).2 = (10 - 8) / (2 / 50) ∧
    assign_zscore_fields { precio_usd_mep := some 3 } 1 1 0 = (0, 0) := by
  have h := C3_zscore_per_area
    { precio_usd_mep := some 500, precio_m2 := some 10, m2_total := some 50 }
    0 8 2 50 (by norm_num) (by norm_num [Option.getD]) rfl (by norm_num)
  exact ⟨by simpa using h.1,
    h.2.1 { precio_usd_mep := some 3 } 1 1 0 (by norm_num)⟩

/-- A truthy optional number retrieved with default 0 is nonzero. -/
lemma truthyQ_getD_ne (x : Option ℚ) (h : truthyQ x = true) : x.getD 0 ≠ 0 := by
  cases x with
  | none => simp [truthyQ] at h
  | some v => simpa [truthyQ] using h

/-- C1 counterexample: a pair of listings where only the normalized addresses
are present and exactly equal has confidence `2/5` (the evidence-group maxima
are added unconditionally, so the denominator is always 100), not `1.0`, and
the pair is **not** detected as a relisting. -/
theorem C1_address_only_pair_cex :
    confidence (fun _ _ _ _ => 0) 50 (7/10)
      { id := some "a", direccion_normalizada := some "corrientes 1000" }
      { id := some "b", direccion_normalizada := some "corrientes 1000" } = 2/5 ∧
    (2/5 : ℚ) ≠ 1 ∧
    is_relisting (fun _ _ _ _ => 0) 50 (7/10)
      { id := some "a", direccion_normalizada := some "corrientes 1000" }
      [{ id := some "b", direccion_normalizada := some "corrientes 1000" }] =
      (false, none, none) := by
  refine ⟨?_, by norm_num, ?_⟩
  · norm_num [confidence, truthyS, truthyQ]
    rw [if_neg (show ¬("corrientes 1000" = "") by decide)]
    norm_num
  · norm_num [is_relisting, skipPair, confidence, truthyS, truthyQ]

/-- C1 amended: every evidence group contributes its weight to the applicable
maximum whether or not its fields are present (the denominator is always
100), so a pair where only the normalized addresses are present and exactly
equal earns `40/100 = 0.4 < 0.6` and is not detected as a relisting. -/
theorem C1_denominator_always_full (d : ℚ → ℚ → ℚ → ℚ → ℚ) (gt tt : ℚ)
    (n o : Listing) (s : String) (hs : s ≠ "")
    (hn : n.direccion_normalizada = some s) (ho : o.direccion_normalizada = some s)
    (hlat : n.lat = none) (hm2 : n.m2_total = none) (hamb : n.ambientes = none)
    (hpiso : n.piso = none) (hbarrio : n.barrio = none)
    (hdesc : n.descripcion = none) :
    confidence d gt tt n o = 2/5 ∧
    is_relisting d gt tt n [o] = (false, none, none) := by
  have hconf : confidence d gt tt n o = 2/5 := by
    simp only [confidence, hn, ho, hlat, hm2, hamb, hpiso, hbarrio, hdesc]
    simp [truthyS, truthyQ, hs]
    norm_num
  refine ⟨hconf, ?_⟩
  unfold is_relisting
  split_ifs with h1 h2
  · rfl
  · rw [hconf] at h2
    norm_num at h2
  · rfl

/-- C2: the relisting scan is first-match — the first non-skipped candidate
with confidence ≥ 0.6 is returned, never examining the rest; on acceptance
the price delta is `(new − old)/old × 100` exactly when both prices are
positive, and (for non-negative price data) null otherwise; and a listing
with no match is marked `active` with all relisting fields null. -/
theorem C2_first_match_and_delta :
    (∀ (d : ℚ → ℚ → ℚ → ℚ → ℚ) (gt tt : ℚ) (n o : Listing) (rest : List Listing),
      skipPair n o = false → 6/10 ≤ confidence d gt tt n o →
      is_relisting d gt tt n (o :: rest) = (true, some o, priceDelta n o)) ∧
    (∀ (n o : Listing) (np op : ℚ), n.precio_usd_mep = some np →
      o.precio_usd_mep = some op → 0 < np → 0 < op →
      priceDelta n o = some ((np - op) / op * 100)) ∧
    (∀ n o : Listing, 0 ≤ n.precio_usd_mep.getD 0 → 0 ≤ o.precio_usd_mep.getD 0 →
      ¬(0 < n.precio_usd_mep.getD 0 ∧ 0 < o.precio_usd_mep.getD 0) →
      priceDelta n o = none) ∧
    (∀ (d : ℚ → ℚ → ℚ → ℚ → ℚ) (p : Listing) (hist : List Listing),
      (is_relisting d 50 (7/10) p hist).1 = false →
      detect_relistings d [p] hist = [⟨"active", none, none, none⟩]) := by
  refine ⟨?_, ?_, ?_, ?_⟩
  · intro d gt tt n o rest h1 h2
    unfold is_relisting
    rw [if_neg (by simp [h1]), if_pos h2]
  · intro n o np op hn ho hnp hop
    unfold priceDelta
    rw [hn, ho]
    have h1 : truthyQ (some np) = true := by simp [truthyQ, hnp.ne']
    have h2 : truthyQ (some op) = true := by simp [truthyQ, hop.ne']
    rw [if_pos ⟨h1, h2⟩, if_pos (by simpa using hop)]
    simp
  · intro n o hn ho hnot
    unfold priceDelta
    split_ifs with h1 h2
    · exfalso
      apply hnot
      constructor
      · exact lt_of_le_of_ne hn (Ne.symm (truthyQ_getD_ne _ h1.1))
      · exact h2
    · rfl
    · rfl
  · intro d p hist h
    unfold detect_relistings detect_one
    rcases hr : is_relisting d 50 (7/10) p hist with ⟨b, oo, dd⟩
    rw [hr] at h
    simp at h
    subst h
    simp only [List.map_cons, List.map_nil, hr]

/-- Witness for C1's amended claim at a concrete address-only pair. -/
theorem C1_witness :
    confidence (fun _ _ _ _ => 0) 50 (7/10)
      { id := some "c", direccion_normalizada := some "santa fe 2000" }
      { id := some "e", direccion_normalizada := some "santa fe 2000" } = 2/5 ∧
    is_relisting (fun _ _ _ _ => 0) 50 (7/10)
      { id := some "c", direccion_normalizada := some "santa fe 2000" }
      [{ id := some "e", direccion_normalizada := some "santa fe 2000" }] =
      (false, none, none) :=
  C1_denominator_always_full (fun _ _ _ _ => 0) 50 (7/10)
    { id := some "c", direccion_normalizada := some "santa fe 2000" }
    { id := some "e", direccion_normalizada := some "santa fe 2000" }
    "santa fe 2000" (by decide) rfl rfl rfl rfl rfl rfl rfl rfl

/-- Witness for C2 at a concrete pool: the first candidate matches with
confidence 0.6 and a +10% price delta, the trailing pool entry is never
examined; a degenerate price pair yields a null delta; an empty pool yields
the active record. -/
theorem C2_witness :
    is_relisting (fun _ _ _ _ => 0) 50 (7/10)
      { id := some "a", source := some "s1", direccion_normalizada := some "alsina 50",
        m2_total := some 50, ambientes := some 2, piso := some 3,
        precio_usd_mep := some 110 }
      ({ id := some "b", source := some "s2", direccion_normalizada := some "alsina 50",
         m2_total := some 50, ambientes := some 2, piso := some 3,
         precio_usd_mep := some 100 } :: [{ id := some "z" }]) =
      (true,
        some { id := some "b", source := some "s2",
               direccion_normalizada := some "alsina 50", m2_total := some 50,
               ambientes := some 2, piso := some 3, precio_usd_mep := some 100 },
        priceDelta
          { id := some "a", source := some "s1",
            direccion_normalizada := some "alsina 50", m2_total := some 50,
            ambientes := some 2, piso := some 3, precio_usd_mep := some 110 }
          { id := some "b", source := some "s2",
            direccion_normalizada := some "alsina 50", m2_total := some 50,
            ambientes := some 2, piso := some 3, precio_usd_mep := some 100 }) ∧
    priceDelta
      { id := some "a", source := some "s1", direccion_normalizada := some "alsina 50",
        m2_total := some 50, ambientes := some 2, piso := some 3,
        precio_usd_mep := some 110 }
      { id := some "b", source := some "s2", direccion_normalizada := some "alsina 50",
        m2_total := some 50, ambientes := some 2, piso := some 3,
        precio_usd_mep := some 100 } = some ((110 - 100) / 100 * 100) ∧
    priceDelta { precio_usd_mep := some 5 } { } = none ∧
    detect_relistings (fun _ _ _ _ => 0) [{ }] [] =
      [⟨"active", none, none, none⟩] := by
  refine ⟨?_, ?_, ?_, ?_⟩
  · apply C2_first_match_and_delta.1 (fun _ _ _ _ => 0) 50 (7/10) _ _ _ (by decide)
    norm_num [confidence, truthyS, truthyQ]
    rw [if_neg (show ¬("alsina 50" = "") by decide)]
    norm_num
  · exact C2_first_match_and_delta.2.1 _ _ 110 100 rfl rfl (by norm_num) (by norm_num)
  · exact C2_first_match_and_delta.2.2.1 _ _ (by norm_num) (by norm_num) (by norm_num)
  · exact C2_first_match_and_delta.2.2.2 (fun _ _ _ _ => 0) _ _ rfl

/-- C5: every opportunity score lies in `[0, 100]`: the contributions are all
non-negative and the sum is clamped by `min · 100`. -/
theorem C5_score_in_range (p : Listing) (days_online : ℤ) :
    0 ≤ (calculate_opportunity_score p days_online).opportunity_score ∧
    (calculate_opportunity_score p days_online).opportunity_score ≤ 100 := by
  simp only [calculate_opportunity_score]
  constructor
  · apply le_min _ (by norm_num)
    apply add_nonneg
    apply add_nonneg
    apply add_nonneg
    apply add_nonneg
    · exact (calculate_price_score_fst_bounds p).1
    · split_ifs <;> norm_num
    · exact (calculate_keyword_score_bounds _).1
    · split_ifs <;> norm_num
    · split_ifs <;> norm_num
  · exact min_le_right _ _

/-- C6: a listing priced 35% below its neighborhood reference price-per-area
(`precio/m2 = 0.65 × reference`), with z-score −2, exactly one keyword match
and 100 days online, not relisted, scores
`50 + 15 + keyword-weight + 10` clamped at 100, and the market-discount
reason precedes the z-score reason in `opportunity_reasons`. -/
theorem C6_tier_composition (p : Listing) (kw : String)
    (hm2 : 0 < p.m2_total.getD 0) (hpr : 0 < p.precio_usd_mep.getD 0)
    (hdisc : p.precio_usd_mep.getD 0 / p.m2_total.getD 0 =
      65/100 * marketPrice (toLowerL (p.barrio.getD "Palermo").toList))
    (hz : p.zscore = some (-2))
    (hkw : detect_keywords ((p.descripcion.getD "") ++ " " ++ (p.titulo.getD "")) = [kw])
    (hstatus : p.status ≠ some "relisted") :
    (calculate_opportunity_score p 100).opportunity_score =
      min (50 + 15 + keywordWeight kw + 10) 100 ∧
    (calculate_opportunity_score p 100).opportunity_reasons =
      [Reason.price30 (p.precio_usd_mep.getD 0 / p.m2_total.getD 0)
         (marketPrice (toLowerL (p.barrio.getD "Palermo").toList)),
       Reason.zscoreVeryLow (-2), Reason.keywordsFound [kw],
       Reason.onlineDays 100] := by
  have hmp := marketPrice_pos (toLowerL (p.barrio.getD "Palermo").toList)
  have hcond : ¬(p.precio_usd_mep.getD 0 ≤ 0 ∨ p.m2_total.getD 0 ≤ 0) := by
    rw [not_or]
    exact ⟨not_le.mpr hpr, not_le.mpr hm2⟩
  have hne : marketPrice (toLowerL (p.barrio.getD "Palermo").toList) ≠ 0 :=
    ne_of_gt hmp
  have h35 : ∀ x : ℚ, x - 65/100 * x = 35/100 * x := fun x => by ring
  have hd : (marketPrice (toLowerL (p.barrio.getD "Palermo").toList) -
      p.precio_usd_mep.getD 0 / p.m2_total.getD 0) /
      marketPrice (toLowerL (p.barrio.getD "Palermo").toList) * 100 = 35 := by
    rw [hdisc, h35, mul_div_assoc, div_self hne]
    norm_num
  have hprice_eval : calculate_price_score p =
      (50, 35, some (Reason.price30 (p.precio_usd_mep.getD 0 / p.m2_total.getD 0)
        (marketPrice (toLowerL (p.barrio.getD "Palermo").toList)))) := by
    simp only [calculate_price_score]
    rw [if_neg hcond, if_pos (by rw [hd]; norm_num), hd]
  have hkwle : keywordWeight kw ≤ 15 :=
    le_trans (keywordWeight_bounds kw).2 (by norm_num)
  have hksc : calculate_keyword_score [kw] = keywordWeight kw := by
    unfold calculate_keyword_score
    rw [if_neg (by simp)]
    simp [min_eq_left, hkwle]
  constructor
  · simp only [calculate_opportunity_score, hprice_eval, hz, hkw, hksc,
      Option.getD_some]
    norm_num [ZSCORE_THRESHOLD, hstatus]
  · simp only [calculate_opportunity_score, hprice_eval, hz, hkw, hksc,
      Option.getD_some]
    norm_num [ZSCORE_THRESHOLD, hstatus]

/-- Witness for C6 at a concrete Palermo Soho listing: `208000/100 = 2080 =
0.65 × 3200`, z-score −2, the single keyword "divorcio", 100 days online. -/
theorem C6_witness :
    (calculate_opportunity_score
      { precio_usd_mep := some 208000, m2_total := some 100,
        barrio := some "Palermo Soho", zscore := some (-2),
        descripcion := some "divorcio" } 100).opportunity_score =
      min (50 + 15 + keywordWeight "divorcio" + 10) 100 ∧
    (calculate_opportunity_score
      { precio_usd_mep := some 208000, m2_total := some 100,
        barrio := some "Palermo Soho", zscore := some (-2),
        descripcion := some "divorcio" } 100).opportunity_reasons =
      [Reason.price30 (208000 / 100) 3200, Reason.zscoreVeryLow (-2),
       Reason.keywordsFound ["divorcio"], Reason.onlineDays 100] :=
  C6_tier_composition
    { precio_usd_mep := some 208000, m2_total := some 100,
      barrio := some "Palermo Soho", zscore := some (-2),
      descripcion := some "divorcio" }
    "divorcio"
    (by norm_num) (by norm_num)
    (by
      have hmp3200 : marketPrice
          (toLowerL ['P', 'a', 'l', 'e', 'r', 'm', 'o', ' ', 'S', 'o', 'h', 'o']) =
          3200 := rfl
      norm_num [hmp3200])
    rfl (by decide) (by decide)

/-- C7: the microzone statistics over the valid (`> 0`) prices: arithmetic
mean, population variance with divisor = count (so the stored standard
deviation is the square root of the mean squared deviation), count, min and
max of the valid prices, mean price-per-area over the valid price-per-area
values, the median by the standard even/odd rule on a sorted permutation of
the valid prices, and the two median examples; an empty comparison set or one
without valid prices yields the all-zero statistics. -/
theorem C7_microzone_stats :
    (∀ props : List Listing, props = [] →
      calculate_microzone_stats props = zeroStats) ∧
    (∀ props : List Listing, validPrices props = [] →
      calculate_microzone_stats props = zeroStats) ∧
    (∀ props : List Listing, validPrices props ≠ [] →
      (calculate_microzone_stats props).mean =
        (validPrices props).sum / ((validPrices props).length : ℚ) ∧
      (calculate_microzone_stats props).variance =
        ((validPrices props).map (fun p =>
          (p - (validPrices props).sum / ((validPrices props).length : ℚ)) ^ 2)).sum /
          ((validPrices props).length : ℚ) ∧
      (calculate_microzone_stats props).std =
        Real.sqrt ((calculate_microzone_stats props).variance : ℝ) ∧
      (calculate_microzone_stats props).count = (validPrices props).length ∧
      (calculate_microzone_stats props).min ∈ validPrices props ∧
      (∀ x ∈ validPrices props, (calculate_microzone_stats props).min ≤ x) ∧
      (calculate_microzone_stats props).max ∈ validPrices props ∧
      (∀ x ∈ validPrices props, x ≤ (calculate_microzone_stats props).max) ∧
      (calculate_microzone_stats props).mean_m2 =
        (if validPricesM2 props = [] then 0
         else (validPricesM2 props).sum / ((validPricesM2 props).length : ℚ)) ∧
      (∃ sorted : List ℚ, sorted.Perm (validPrices props) ∧
        sorted.Sorted (· ≤ ·) ∧
        (calculate_microzone_stats props).median =
          (if (validPrices props).length % 2 = 0 then
            (sorted.getD ((validPrices props).length / 2 - 1) 0 +
              sorted.getD ((validPrices props).length / 2) 0) / 2
           else sorted.getD ((validPrices props).length / 2) 0))) ∧
    (calculate_microzone_stats
      [{ precio_usd_mep := some 100 }, { precio_usd_mep := some 200 },
       { precio_usd_mep := some 300 }]).median = 200 ∧
    (calculate_microzone_stats
      [{ precio_usd_mep := some 100 },
       { precio_usd_mep := some 200 }]).median = 150 := by
  haveI : Std.Antisymm (fun x1 x2 : ℚ => x1 ≤ x2) :=
    ⟨fun h1 h2 => le_antisymm h1 h2⟩
  refine ⟨?_, ?_, ?_, ?_, ?_⟩
  · intro props h
    rw [h]
    rfl
  · intro props h
    simp only [calculate_microzone_stats, h]
    split_ifs <;> rfl
  · intro props h
    have hprops : props ≠ [] := by
      intro he
      apply h
      rw [he]
      rfl
    have hmean : (calculate_microzone_stats props).mean =
        (validPrices props).sum / ((validPrices props).length : ℚ) := by
      simp only [calculate_microzone_stats, if_neg hprops, if_neg h]
    have hvar_eq : (calculate_microzone_stats props).variance =
        ((validPrices props).map (fun p =>
          (p - (validPrices props).sum / ((validPrices props).length : ℚ)) ^ 2)).sum /
          ((validPrices props).length : ℚ) := by
      simp only [calculate_microzone_stats, if_neg hprops, if_neg h]
    have hcount : (calculate_microzone_stats props).count =
        (validPrices props).length := by
      simp only [calculate_microzone_stats, if_neg hprops, if_neg h]
    have hmin_eq : (calculate_microzone_stats props).min =
        (validPrices props).min?.getD 0 := by
      simp only [calculate_microzone_stats, if_neg hprops, if_neg h]
    have hmax_eq : (calculate_microzone_stats props).max =
        (validPrices props).max?.getD 0 := by
      simp only [calculate_microzone_stats, if_neg hprops, if_neg h]
    have hm2_eq : (calculate_microzone_stats props).mean_m2 =
        (if validPricesM2 props = [] then 0
         else (validPricesM2 props).sum / ((validPricesM2 props).length : ℚ)) := by
      simp only [calculate_microzone_stats, if_neg hprops, if_neg h]
    have hmed_eq : (calculate_microzone_stats props).median =
        (if (validPrices props).length % 2 = 0 then
          ((List.insertionSort (fun a b => a ≤ b) (validPrices props)).getD
              ((validPrices props).length / 2 - 1) 0 +
            (List.insertionSort (fun a b => a ≤ b) (validPrices props)).getD
              ((validPrices props).length / 2) 0) / 2
         else (List.insertionSort (fun a b => a ≤ b) (validPrices props)).getD
            ((validPrices props).length / 2) 0) := by
      simp only [calculate_microzone_stats, if_neg hprops, if_neg h]
    have hvar_nonneg : (0 : ℚ) ≤ (calculate_microzone_stats props).variance := by
      rw [hvar_eq]
      apply div_nonneg _ (Nat.cast_nonneg _)
      apply List.sum_nonneg
      intro x hx
      obtain ⟨q, _, rfl⟩ := List.mem_map.mp hx
      exact sq_nonneg _
    have hstd : (calculate_microzone_stats props).std =
        Real.sqrt ((calculate_microzone_stats props).variance : ℝ) := by
      unfold MicrozoneStats.std
      split_ifs with hv
      · rfl
      · rw [le_antisymm (not_lt.mp hv) hvar_nonneg]
        simp
    obtain ⟨m, hmin⟩ : ∃ m, (validPrices props).min? = some m := by
      cases hmin : (validPrices props).min? with
      | none => exact absurd (List.min?_eq_none_iff.mp hmin) h
      | some m => exact ⟨m, rfl⟩
    obtain ⟨M, hmax⟩ : ∃ M, (validPrices props).max? = some M := by
      cases hmax : (validPrices props).max? with
      | none => exact absurd (List.max?_eq_none_iff.mp hmax) h
      | some M => exact ⟨M, rfl⟩
    have hminP := (List.min?_eq_some_iff (fun a => le_refl a)
      (fun a b => min_choice a b) (fun a b c => le_min_iff)).mp hmin
    have hmaxP := (List.max?_eq_some_iff (fun a => le_refl a)
      (fun a b => max_choice a b) (fun a b c => max_le_iff)).mp hmax
    refine ⟨hmean, hvar_eq, hstd, hcount, ?_, ?_, ?_, ?_, hm2_eq, ?_⟩
    · rw [hmin_eq, hmin]
      exact hminP.1
    · intro x hx
      rw [hmin_eq, hmin]
      exact hminP.2 x hx
    · rw [hmax_eq, hmax]
      exact hmaxP.1
    · intro x hx
      rw [hmax_eq, hmax]
      exact hmaxP.2 x hx
    · exact ⟨List.insertionSort (fun a b => a ≤ b) (validPrices props),
        List.perm_insertionSort _ _, List.sorted_insertionSort _ _, hmed_eq⟩
  · simp only [calculate_microzone_stats]
    rw [if_neg (by decide), if_neg (by decide)]
    norm_num [validPrices, List.insertionSort, List.orderedInsert]
  · simp only [calculate_microzone_stats]
    rw [if_neg (by decide), if_neg (by decide)]
    norm_num [validPrices, List.insertionSort, List.orderedInsert]

/-- Witness for C7 at concrete zones: the empty set, a set with no valid
prices, and a two-listing zone for the general statistics. -/
theorem C7_witness :
    calculate_microzone_stats [] = zeroStats ∧
    calculate_microzone_stats [{ precio_usd_mep := some 0 }] = zeroStats ∧
    (calculate_microzone_stats
      [{ precio_usd_mep := some 100 }, { precio_usd_mep := some 200 }]).mean =
      (validPrices
        [{ precio_usd_mep := some 100 }, { precio_usd_mep := some 200 }]).sum /
      ((validPrices
        [{ precio_usd_mep := some 100 }, { precio_usd_mep := some 200 }]).length : ℚ) ∧
    (calculate_microzone_stats
      [{ precio_usd_mep := some 100 }, { precio_usd_mep := some 200 },
       { precio_usd_mep := some 300 }]).median = 200 :=
  ⟨C7_microzone_stats.1 [] rfl,
   C7_microzone_stats.2.1 [{ precio_usd_mep := some 0 }] (by decide),
   (C7_microzone_stats.2.2.1
     [{ precio_usd_mep := some 100 }, { precio_usd_mep := some 200 }]
     (by decide)).1,
   C7_microzone_stats.2.2.2.1⟩

end RealEstate
